import Mathlib

/-!
Shallow embedding of the VCT match-prediction app (`app.py`).

The predictive core is the single function `predict_match` (app.py lines
101-151): it looks the two team abbreviations up in the loaded teams table,
derives a 4-dimensional feature vector, scales it with a pre-fit scaler,
asks the classifier for the positive-class probability, and packages the
result; any exception raised inside the `try` block is caught and turned
into a result dictionary carrying only an `error` string.

Python floats are modelled as real numbers; JSON dictionaries as
association lists; the opaque serialized scaler and model as function
parameters returning `Except String _`, whose `error` branch stands for an
exception raised inside `scaler.transform` / `model.predict_proba` (the
`str(e)` text of the exception is the carried string).  `np.mean` is
sum/length and `np.std` (the default `ddof = 0`) is the square root of the
mean squared deviation.  Python's `round(x, 3)` is modelled as rounding
`1000*x` to the nearest integer; the tie-breaking rule (Python rounds
half to even, `round` here rounds half up) is not observable in any of the
properties below.
-/

namespace Predict

/-- One record of `merged_teams_data.json`: the code reads `avg_rating`
with `dict.get` (so it may be absent, app.py lines 108/121-122) and
`map_win_rate` with plain indexing. -/
structure TeamStats where
  avg_rating : Option ℝ
  map_win_rate : List (String × ℝ)

/-- The loaded teams table `teams_data`: abbreviation to stats, a Python
dict modelled as an association list (first binding wins). -/
abbrev TeamsData := List (String × TeamStats)

/-- Python dict lookup: `some` the first value bound to the key, `none`
models a `KeyError`. -/
def lookup {α : Type} : List (String × α) → String → Option α
  | [], _ => none
  | (k, v) :: rest, key => if k = key then some v else lookup rest key

/-- Constant `DEFAULT_WIN_RATE` of app.py line 112. -/
def DEFAULT_WIN_RATE : ℝ := 0.5

/-- `np.mean` on a list of floats: sum divided by length (for the empty
list Lean's `x / 0 = 0` convention gives `0`; the code never takes the
mean of an empty list). -/
noncomputable def npMean (xs : List ℝ) : ℝ := xs.sum / xs.length

/-- `np.std` with the default `ddof = 0`: square root of the mean of the
squared deviations from the mean. -/
noncomputable def npStd (xs : List ℝ) : ℝ :=
  Real.sqrt (npMean (xs.map fun x => (x - npMean xs) ^ 2))

/-- App.py line 108: `[t.get("avg_rating", 0) for t in teams_data.values()]`. -/
def allRatings (teams_data : TeamsData) : List ℝ :=
  teams_data.map fun p => p.2.avg_rating.getD 0

/-- App.py line 109: `np.mean(all_ratings) if all_ratings else 0`. -/
noncomputable def globalAvgRating (teams_data : TeamsData) : ℝ :=
  if (allRatings teams_data).isEmpty then 0 else npMean (allRatings teams_data)

/-- App.py lines 115-118: `team["map_win_rate"].get(map_name, DEFAULT_WIN_RATE)`
for each team, then the difference. -/
def map_diff (team1 team2 : TeamStats) (map_name : String) : ℝ :=
  (lookup team1.map_win_rate map_name).getD DEFAULT_WIN_RATE -
  (lookup team2.map_win_rate map_name).getD DEFAULT_WIN_RATE

/-- App.py lines 121-122: `team.get("avg_rating", global_avg_rating)`. -/
def teamRating (team : TeamStats) (global_avg_rating : ℝ) : ℝ :=
  team.avg_rating.getD global_avg_rating

/-- App.py line 123: `t1_rating - t2_rating`. -/
noncomputable def rating_diff (teams_data : TeamsData) (team1 team2 : TeamStats) : ℝ :=
  teamRating team1 (globalAvgRating teams_data) - teamRating team2 (globalAvgRating teams_data)

/-- App.py lines 126-128: `(t1_rating - global_avg_rating) - (t2_rating - global_avg_rating)`. -/
noncomputable def rating_level_diff (teams_data : TeamsData) (team1 team2 : TeamStats) : ℝ :=
  (teamRating team1 (globalAvgRating teams_data) - globalAvgRating teams_data) -
  (teamRating team2 (globalAvgRating teams_data) - globalAvgRating teams_data)

/-- App.py lines 131-132: `list(team["map_win_rate"].values()) or [DEFAULT_WIN_RATE]`
(Python `or`: the empty list is falsy, so an empty value list falls back to
the singleton `[0.5]`). -/
def ratesOr (team : TeamStats) : List ℝ :=
  match team.map_win_rate.map Prod.snd with
  | [] => [DEFAULT_WIN_RATE]
  | x :: xs => x :: xs

/-- App.py line 133: `np.std(t1_rates) - np.std(t2_rates)`. -/
noncomputable def map_stability_diff (team1 team2 : TeamStats) : ℝ :=
  npStd (ratesOr team1) - npStd (ratesOr team2)

/-- App.py line 135: the ordered feature vector
`[rating_diff, map_diff, rating_level_diff, map_stability_diff]`. -/
noncomputable def features (teams_data : TeamsData) (team1 team2 : TeamStats)
    (map_name : String) : List ℝ :=
  [rating_diff teams_data team1 team2, map_diff team1 team2 map_name,
   rating_level_diff teams_data team1 team2, map_stability_diff team1 team2]

/-- Python `round(x, 3)`: nearest multiple of `1/1000` (tie-breaking
direction aside, see the file header). -/
noncomputable def round3 (x : ℝ) : ℝ := (round (1000 * x) : ℤ) / 1000

/-- The dictionary `predict_match` returns: either the success record of
app.py lines 143-149 (with fields `team1`, `team2`, `map`, `win_prob`,
`confidence` and no error field), or the error record of line 151 (with
only an error string and in particular no probability field). -/
inductive PredictResult where
  | ok (team1 team2 map : String) (win_prob : ℝ) (confidence : String)
  | error (msg : String)

/-- App.py lines 101-151, `predict_match`.  `model` stands for one row of
`model.predict_proba` (the code takes row `[0]` of the matrix returned for
the single input row; the row itself is then indexed at `[1]`), `scaler`
for one row of `scaler.transform`; their `Except.error e` branch models an
exception with text `e` raised inside the call, and a failed team lookup
models the `KeyError` of lines 104-105, whose `str(e)` is the quoted key.
Every escape goes through the `except` clause of lines 150-151, producing
`{"error": "预测失败: " + str(e)}`. -/
noncomputable def predict_match (team1_abbr team2_abbr map_name : String)
    (model : List ℝ → Except String (List ℝ))
    (scaler : List ℝ → Except String (List ℝ))
    (teams_data : TeamsData) : PredictResult :=
  match lookup teams_data team1_abbr with
  | none => .error ("预测失败: '" ++ team1_abbr ++ "'")
  | some team1 =>
    match lookup teams_data team2_abbr with
    | none => .error ("预测失败: '" ++ team2_abbr ++ "'")
    | some team2 =>
      match scaler (features teams_data team1 team2 map_name) with
      | .error e => .error ("预测失败: " ++ e)
      | .ok features_scaled =>
        match model features_scaled with
        | .error e => .error ("预测失败: " ++ e)
        | .ok probs =>
          match probs.get? 1 with
          | none => .error ("预测失败: index 1 is out of bounds")
          | some prob =>
            .ok team1_abbr team2_abbr map_name (round3 prob)
              (if |prob - 0.5| > 0.3 then "高可信度" else "需谨慎参考")

/-- App.py line 394: the percentage rendered for team A is
`result['win_prob'] * 100`. -/
def team1DisplayPercent (win_prob : ℝ) : ℝ := win_prob * 100

/-- App.py line 403: the percentage rendered for team B is
`(1 - result['win_prob']) * 100`, computed from the same result object —
`show_prediction_page` calls `predict_match` exactly once (line 376) and
never calls the classifier itself. -/
def team2DisplayPercent (win_prob : ℝ) : ℝ := (1 - win_prob) * 100

/-- App.py lines 165-170: the region table. -/
def regions : List (String × List String) :=
  [("VCT CN", ["AG", "BLG", "EDG", "FPX", "JDG", "NOVA", "TE", "TEC", "TYL", "WOL", "DRG", "XLG"]),
   ("VCT EMEA", ["BBL", "FNC", "FUT", "GX", "KC", "KOI", "NAVI", "TH", "TL", "VIT", "M8", "APK"]),
   ("VCT PACIFIC", ["DFM", "DRX", "GEN", "GE", "PRX", "RRQ", "T1", "TLN", "TS", "ZETA", "NS", "BME"]),
   ("VCT AMERICA", ["100T", "C9", "EG", "FUR", "KRU", "LEV", "LOUD", "MIBR", "NRG", "SEN", "G2", "2G"])]

/-- App.py lines 314-317: the team-B selection list,
`[team for team in regions[b_region] if b_region != a_region or team != a_team]`. -/
def available_b_teams (a_region a_team b_region : String) : List String :=
  ((lookup regions b_region).getD []).filter fun team =>
    b_region != a_region || team != a_team

/-- The ratings that are actually stored in the table (no default
substituted).  The code does NOT compute its global mean over this list:
line 108 substitutes `0` for a missing `avg_rating` and line 109 divides
by the total number of teams, so a team without a rating drags the mean
down instead of being left out. -/
def presentRatings (teams_data : TeamsData) : List ℝ :=
  teams_data.filterMap fun p => p.2.avg_rating

/-- Concrete data for the witnesses: a team with a rating and one map. -/
def exS1 : TeamStats := ⟨some 1.2, [("Ascent", 0.6)]⟩

/-- Concrete data for the witnesses: a team with no stored rating and an
empty map table. -/
def exS2 : TeamStats := ⟨none, []⟩

/-- Concrete data for the witnesses: a team with a rating and an empty map
table. -/
def exS3 : TeamStats := ⟨some 0.9, []⟩

/-- Concrete teams table for the witnesses. -/
def exTD : TeamsData := [("A", exS1), ("B", exS2)]

/-- Concrete teams table (both map tables empty) for the witnesses. -/
def exTD2 : TeamsData := [("A", exS3), ("B", exS2)]

/-- Concrete stand-in for one row of `scaler.transform`: the identity. -/
def exScaler : List ℝ → Except String (List ℝ) := fun v => .ok v

/-- Concrete stand-in for one row of `model.predict_proba`: a fixed
two-class distribution. -/
def exModel : List ℝ → Except String (List ℝ) := fun _ => .ok [0.1, 0.9]

/-- Concrete stand-in for a scaler whose `transform` raises an exception
with text `"boom"`. -/
def exFailScaler : List ℝ → Except String (List ℝ) := fun _ => .error "boom"

/-- The first region's team list, for the witnesses (identical to the
`"VCT CN"` entry of `regions`). -/
def exCN : List String :=
  ["AG", "BLG", "EDG", "FPX", "JDG", "NOVA", "TE", "TEC", "TYL", "WOL", "DRG", "XLG"]

/-- A successful lookup finds a pair that is in the table. -/
theorem lookup_mem {α : Type} {l : List (String × α)} {key : String} {v : α}
    (h : lookup l key = some v) : (key, v) ∈ l := by
  induction l with
  | nil => simp [lookup] at h
  | cons p rest ih =>
    obtain ⟨k, w⟩ := p
    rw [lookup] at h
    split at h
    · next heq =>
      cases h
      subst heq
      exact List.mem_cons_self _ _
    · exact List.mem_cons_of_mem _ (ih h)

/-- The standard deviation of a one-element sample is `0`. -/
theorem npStd_singleton (c : ℝ) : npStd [c] = 0 := by
  simp [npStd, npMean]

/-- App.py lines 131-132 as a conditional: the value list of the team's map
table, or the singleton `[0.5]` when that table is empty. -/
theorem ratesOr_eq (t : TeamStats) :
    ratesOr t =
      if t.map_win_rate.isEmpty then [DEFAULT_WIN_RATE]
      else t.map_win_rate.map Prod.snd := by
  obtain ⟨a, mwr⟩ := t
  cases mwr <;> simp [ratesOr]

/-- C2.  The third feature, `rating_level_diff`, computed on lines 126-128
as `(t1_rating - global_avg_rating) - (t2_rating - global_avg_rating)`, is
algebraically identical to the first feature `rating_diff` (line 123,
`t1_rating - t2_rating`): the shared `global_avg_rating` term cancels, for
every teams table and every pair of stats records. -/
theorem rating_level_diff_eq_rating_diff (teams_data : TeamsData) (team1 team2 : TeamStats) :
    rating_level_diff teams_data team1 team2 = rating_diff teams_data team1 team2 := by
  unfold rating_level_diff rating_diff
  ring

/-- C6.  For teams present in the table whose map tables are both empty,
`map_stability_diff` is `0`: each side falls back to the singleton
`[0.5]` (line 131-132), whose standard deviation is `0`. -/
theorem map_stability_diff_zero_of_empty (teams_data : TeamsData) (t1a t2a : String)
    (s1 s2 : TeamStats) (h1 : lookup teams_data t1a = some s1)
    (h2 : lookup teams_data t2a = some s2)
    (he1 : s1.map_win_rate = []) (he2 : s2.map_win_rate = []) :
    map_stability_diff s1 s2 = 0 := by
  have e1 : ratesOr s1 = [DEFAULT_WIN_RATE] := by rw [ratesOr_eq, he1]; rfl
  have e2 : ratesOr s2 = [DEFAULT_WIN_RATE] := by rw [ratesOr_eq, he2]; rfl
  rw [map_stability_diff, e1, e2, npStd_singleton, sub_self]

/-- Witness for C6 at a concrete table: both teams of `exTD2` have empty
map tables and the feature evaluates to `0`. -/
theorem map_stability_diff_zero_of_empty_witness :
    lookup exTD2 "A" = some exS3 ∧ lookup exTD2 "B" = some exS2 ∧
    exS3.map_win_rate = [] ∧ exS2.map_win_rate = [] ∧
    map_stability_diff exS3 exS2 = 0 :=
  ⟨rfl, rfl, rfl, rfl,
    map_stability_diff_zero_of_empty exTD2 "A" "B" exS3 exS2 rfl rfl rfl rfl⟩

/-- C8.  On the result page the percentage rendered for team B (line 403)
is `(1 - win_prob) * 100`: the complement of team A's rendered percentage
(line 394), the two summing to `100` — team B's share is derived from the
single `predict_match` result, not from a second classifier call. -/
theorem team2_display_is_complement (win_prob : ℝ) :
    team2DisplayPercent win_prob = (1 - win_prob) * 100 ∧
    team1DisplayPercent win_prob + team2DisplayPercent win_prob = 100 ∧
    team2DisplayPercent win_prob / 100 = 1 - win_prob := by
  unfold team1DisplayPercent team2DisplayPercent
  exact ⟨rfl, by ring, by ring⟩

/-- C9.  Membership in the team-B selection list: a team of the chosen
region is kept unless the two regions are equal and the team is exactly
the selected team A; in particular, for a different region nothing is
filtered out. -/
theorem available_b_teams_mem (a_region a_team b_region team : String)
    (l : List String) (hl : lookup regions b_region = some l) :
    team ∈ available_b_teams a_region a_team b_region ↔
      team ∈ l ∧ (b_region = a_region → team ≠ a_team) := by
  simp only [available_b_teams, hl, Option.getD_some, List.mem_filter,
    Bool.or_eq_true, bne_iff_ne, ne_eq]
  tauto

/-- Witness for C9: in region `"VCT CN"` with team A `"AG"` selected and
the same region chosen for team B, `"AG"` is excluded from the list. -/
theorem available_b_teams_mem_witness :
    lookup regions "VCT CN" = some exCN ∧
    ("AG" ∈ available_b_teams "VCT CN" "AG" "VCT CN" ↔
      "AG" ∈ exCN ∧ ("VCT CN" = "VCT CN" → "AG" ≠ "AG")) :=
  ⟨rfl, available_b_teams_mem "VCT CN" "AG" "VCT CN" "AG" exCN rfl⟩

/-- C1.  For teams present in the table, the derived feature vector (line
135) is exactly the ordered 4-vector `[rating_diff, map_diff,
rating_level_diff, map_stability_diff]` where: `rating_diff` is the
difference of the two `avg_rating`s, each defaulting to the global
average rating when absent; `map_diff` is the difference of the two win
rates on the given map, each defaulting to `0.5` when the map is unseen
for that team; `rating_level_diff` is the difference of the two ratings
centred at the global average; and `map_stability_diff` is the difference
of the standard deviations of the two full map-win-rate value sets, each
set defaulting to the singleton `{0.5}` when the team's map table is
empty.  `features` is a pure function of its arguments, so the
derivation has no side effects. -/
theorem features_eq_spec (teams_data : TeamsData) (t1a t2a map_name : String)
    (s1 s2 : TeamStats) (h1 : lookup teams_data t1a = some s1)
    (h2 : lookup teams_data t2a = some s2) :
    features teams_data s1 s2 map_name =
      [s1.avg_rating.getD (globalAvgRating teams_data) -
         s2.avg_rating.getD (globalAvgRating teams_data),
       (lookup s1.map_win_rate map_name).getD 0.5 -
         (lookup s2.map_win_rate map_name).getD 0.5,
       (s1.avg_rating.getD (globalAvgRating teams_data) - globalAvgRating teams_data) -
         (s2.avg_rating.getD (globalAvgRating teams_data) - globalAvgRating teams_data),
       npStd (if s1.map_win_rate.isEmpty then [0.5] else s1.map_win_rate.map Prod.snd) -
         npStd (if s2.map_win_rate.isEmpty then [0.5] else s2.map_win_rate.map Prod.snd)] := by
  simp only [features, rating_diff, rating_level_diff, map_diff, map_stability_diff,
    teamRating, ratesOr_eq, DEFAULT_WIN_RATE]

/-- Witness for C1 at the concrete table `exTD` and map `"Ascent"`. -/
theorem features_eq_spec_witness :
    lookup exTD "A" = some exS1 ∧ lookup exTD "B" = some exS2 ∧
    features exTD exS1 exS2 "Ascent" =
      [exS1.avg_rating.getD (globalAvgRating exTD) -
         exS2.avg_rating.getD (globalAvgRating exTD),
       (lookup exS1.map_win_rate "Ascent").getD 0.5 -
         (lookup exS2.map_win_rate "Ascent").getD 0.5,
       (exS1.avg_rating.getD (globalAvgRating exTD) - globalAvgRating exTD) -
         (exS2.avg_rating.getD (globalAvgRating exTD) - globalAvgRating exTD),
       npStd (if exS1.map_win_rate.isEmpty then [0.5] else exS1.map_win_rate.map Prod.snd) -
         npStd (if exS2.map_win_rate.isEmpty then [0.5] else exS2.map_win_rate.map Prod.snd)] :=
  ⟨rfl, rfl, features_eq_spec exTD "A" "B" "Ascent" exS1 exS2 rfl rfl⟩

/-- A win rate looked up with default `0.5` stays in `[0, 1]` when every
stored win rate does. -/
theorem winRate_bounds (l : List (String × ℝ)) (m : String)
    (h : ∀ p ∈ l, 0 ≤ p.2 ∧ p.2 ≤ 1) :
    0 ≤ (lookup l m).getD DEFAULT_WIN_RATE ∧ (lookup l m).getD DEFAULT_WIN_RATE ≤ 1 := by
  cases hl : lookup l m with
  | none => constructor <;> norm_num [DEFAULT_WIN_RATE]
  | some r => simpa using h (m, r) (lookup_mem hl)

/-- C5.  For teams present in the table, if every stored per-map win rate
lies in `[0, 1]` then `map_diff` lies in `[-1, 1]`; it is `0` whenever the
two effective win rates coincide, in particular when the map is absent
from both tables and both sides default to `0.5`. -/
theorem map_diff_bounds (teams_data : TeamsData) (t1a t2a map_name : String)
    (s1 s2 : TeamStats) (h1 : lookup teams_data t1a = some s1)
    (h2 : lookup teams_data t2a = some s2)
    (hb1 : ∀ p ∈ s1.map_win_rate, 0 ≤ p.2 ∧ p.2 ≤ 1)
    (hb2 : ∀ p ∈ s2.map_win_rate, 0 ≤ p.2 ∧ p.2 ≤ 1) :
    (-1 ≤ map_diff s1 s2 map_name ∧ map_diff s1 s2 map_name ≤ 1) ∧
    ((lookup s1.map_win_rate map_name).getD DEFAULT_WIN_RATE =
        (lookup s2.map_win_rate map_name).getD DEFAULT_WIN_RATE →
      map_diff s1 s2 map_name = 0) ∧
    (lookup s1.map_win_rate map_name = none → lookup s2.map_win_rate map_name = none →
      map_diff s1 s2 map_name = 0) := by
  have b1 := winRate_bounds s1.map_win_rate map_name hb1
  have b2 := winRate_bounds s2.map_win_rate map_name hb2
  unfold map_diff
  refine ⟨⟨by linarith [b1.1, b1.2, b2.1, b2.2], by linarith [b1.1, b1.2, b2.1, b2.2]⟩, ?_, ?_⟩
  · intro h
    rw [h, sub_self]
  · intro hn1 hn2
    rw [hn1, hn2, sub_self]

/-- Witness for C5 at the concrete table `exTD` and map `"Ascent"`. -/
theorem map_diff_bounds_witness :
    lookup exTD "A" = some exS1 ∧ lookup exTD "B" = some exS2 ∧
    (∀ p ∈ exS1.map_win_rate, 0 ≤ p.2 ∧ p.2 ≤ 1) ∧
    (∀ p ∈ exS2.map_win_rate, 0 ≤ p.2 ∧ p.2 ≤ 1) ∧
    ((-1 ≤ map_diff exS1 exS2 "Ascent" ∧ map_diff exS1 exS2 "Ascent" ≤ 1) ∧
     ((lookup exS1.map_win_rate "Ascent").getD DEFAULT_WIN_RATE =
         (lookup exS2.map_win_rate "Ascent").getD DEFAULT_WIN_RATE →
       map_diff exS1 exS2 "Ascent" = 0) ∧
     (lookup exS1.map_win_rate "Ascent" = none → lookup exS2.map_win_rate "Ascent" = none →
       map_diff exS1 exS2 "Ascent" = 0)) :=
  ⟨rfl, rfl,
    by
      intro p hp
      simp only [exS1, List.mem_singleton] at hp
      subst hp
      constructor <;> norm_num,
    by
      intro p hp
      simp [exS2] at hp,
    map_diff_bounds exTD "A" "B" "Ascent" exS1 exS2 rfl rfl
      (by
        intro p hp
        simp only [exS1, List.mem_singleton] at hp
        subst hp
        constructor <;> norm_num)
      (by
        intro p hp
        simp [exS2] at hp)⟩

/-- The sum of the ratings list of line 108 (missing ratings replaced by
`0`) equals the sum of the actually stored ratings. -/
theorem sum_allRatings_eq (teams_data : TeamsData) :
    (allRatings teams_data).sum = (presentRatings teams_data).sum := by
  induction teams_data with
  | nil => rfl
  | cons p rest ih =>
    simp only [allRatings, presentRatings] at ih
    cases h : p.2.avg_rating with
    | none => simp [allRatings, presentRatings, List.filterMap_cons, h, ih]
    | some r => simp [allRatings, presentRatings, List.filterMap_cons, h, ih]

/-- A team with no stored rating makes the stored-ratings list strictly
shorter than the table. -/
theorem presentRatings_length_lt {teams_data : TeamsData} {key : String} {s : TeamStats}
    (hmem : (key, s) ∈ teams_data) (hnone : s.avg_rating = none) :
    (presentRatings teams_data).length < teams_data.length := by
  induction teams_data with
  | nil => cases hmem
  | cons p rest ih =>
    rcases List.mem_cons.mp hmem with heq | hmem2
    · subst heq
      simp only [presentRatings, List.filterMap_cons, hnone, List.length_cons]
      have hle := List.length_filterMap_le (fun q : String × TeamStats => q.2.avg_rating) rest
      simp only [presentRatings] at *
      omega
    · have hlt := ih hmem2
      simp only [presentRatings] at hlt ⊢
      cases hp : p.2.avg_rating with
      | none =>
        simp only [List.filterMap_cons, hp, List.length_cons]
        omega
      | some r =>
        simp only [List.filterMap_cons, hp, List.length_cons]
        omega

/-- C10.  Line 108 substitutes `0` for a missing `avg_rating` and line 109
divides by the number of loaded teams, so the global mean counts a
rating-less team as a `0`; that team then receives the (lowered) global
mean as its own rating on lines 121-122.  Whenever at least one rating is
stored, their total is positive and some team lacks a rating, the global
mean the code computes is strictly below the mean of the stored ratings:
the rating-less team lowers the mean rather than being excluded from it. -/
theorem globalAvgRating_counts_missing_as_zero (teams_data : TeamsData)
    (abbr : String) (s : TeamStats)
    (hlook : lookup teams_data abbr = some s) (hnone : s.avg_rating = none)
    (hne : presentRatings teams_data ≠ [])
    (hpos : 0 < (presentRatings teams_data).sum) :
    globalAvgRating teams_data =
      (teams_data.map fun p => p.2.avg_rating.getD 0).sum / teams_data.length ∧
    teamRating s (globalAvgRating teams_data) = globalAvgRating teams_data ∧
    globalAvgRating teams_data < npMean (presentRatings teams_data) := by
  have hmem := lookup_mem hlook
  have hlt := presentRatings_length_lt hmem hnone
  have hk : 0 < (presentRatings teams_data).length := List.length_pos.mpr hne
  have hfalse : (allRatings teams_data).isEmpty = false := by
    cases teams_data with
    | nil => simp [lookup] at hlook
    | cons p rest => rfl
  have hglobal : globalAvgRating teams_data =
      (allRatings teams_data).sum / teams_data.length := by
    rw [globalAvgRating, hfalse]
    simp only [Bool.false_eq_true, if_false, npMean, allRatings, List.length_map]
  refine ⟨?_, by simp [teamRating, hnone], ?_⟩
  · rw [hglobal]
    rfl
  · rw [hglobal, sum_allRatings_eq, npMean]
    exact div_lt_div_of_pos_left hpos (by exact_mod_cast hk) (by exact_mod_cast hlt)

/-- Witness for C10: in `exTD`, team `"B"` has no stored rating; the
global mean `(1.2 + 0) / 2` is strictly below the stored-ratings mean
`1.2`, and `"B"` receives the global mean as its rating. -/
theorem globalAvgRating_counts_missing_as_zero_witness :
    lookup exTD "B" = some exS2 ∧ exS2.avg_rating = none ∧
    presentRatings exTD ≠ [] ∧ 0 < (presentRatings exTD).sum ∧
    (globalAvgRating exTD =
       (exTD.map fun p => p.2.avg_rating.getD 0).sum / exTD.length ∧
     teamRating exS2 (globalAvgRating exTD) = globalAvgRating exTD ∧
     globalAvgRating exTD < npMean (presentRatings exTD)) :=
  ⟨rfl, rfl,
    by simp [presentRatings, exTD, exS1, exS2, List.filterMap_cons],
    by norm_num [presentRatings, exTD, exS1, exS2, List.filterMap_cons],
    globalAvgRating_counts_missing_as_zero exTD "B" exS2 rfl rfl
      (by simp [presentRatings, exTD, exS1, exS2, List.filterMap_cons])
      (by norm_num [presentRatings, exTD, exS1, exS2, List.filterMap_cons])⟩

/-- Appending to a non-empty string yields a non-empty string. -/
theorem append_ne_empty (s t : String) (h : s.data ≠ []) : s ++ t ≠ "" := by
  intro he
  apply h
  have hd := congrArg String.data he
  rw [String.data_append] at hd
  exact (List.append_eq_nil.mp hd).1

/-- The message of the `KeyError` branch is never empty. -/
theorem quoted_msg_ne_empty (abbr : String) : "预测失败: '" ++ abbr ++ "'" ≠ "" := by
  apply append_ne_empty
  rw [String.data_append]
  intro hx
  exact absurd (List.append_eq_nil.mp hx).1 (by decide)

/-- The message of the caught-exception branch is never empty. -/
theorem caught_msg_ne_empty (e : String) : "预测失败: " ++ e ≠ "" :=
  append_ne_empty _ _ (by decide)

/-- C3.  Every failure path of `predict_match` — an absent team
abbreviation (the `KeyError` of lines 104-105), an exception raised inside
`scaler.transform` (line 138) with both teams present, and an exception
raised inside `model.predict_proba` (line 141) with both teams present and
the scaling done — lands in the `except` clause of lines 150-151 and
yields an error record whose message starts with the non-empty prefix
"预测失败: "; moreover every error record the function can ever return
has a non-empty message.  The `PredictResult.error` constructor carries no
probability field, and `predict_match` is a total Lean function, so no
exception reaches the caller. -/
theorem predict_match_error_result (t1a t2a map_name : String)
    (model scaler : List ℝ → Except String (List ℝ)) (teams_data : TeamsData) :
    ((lookup teams_data t1a = none ∨ lookup teams_data t2a = none) →
      ∃ msg, predict_match t1a t2a map_name model scaler teams_data =
        .error msg ∧ msg ≠ "") ∧
    (∀ s1 s2 e, lookup teams_data t1a = some s1 → lookup teams_data t2a = some s2 →
      scaler (features teams_data s1 s2 map_name) = .error e →
      predict_match t1a t2a map_name model scaler teams_data =
        .error ("预测失败: " ++ e)) ∧
    (∀ s1 s2 fs e, lookup teams_data t1a = some s1 → lookup teams_data t2a = some s2 →
      scaler (features teams_data s1 s2 map_name) = .ok fs → model fs = .error e →
      predict_match t1a t2a map_name model scaler teams_data =
        .error ("预测失败: " ++ e)) ∧
    ∀ msg, predict_match t1a t2a map_name model scaler teams_data =
        .error msg → msg ≠ "" := by
  refine ⟨?_, ?_, ?_, ?_⟩
  · rintro (h | h)
    · exact ⟨"预测失败: '" ++ t1a ++ "'", by simp [predict_match, h], quoted_msg_ne_empty t1a⟩
    · cases h1 : lookup teams_data t1a with
      | none =>
        exact ⟨"预测失败: '" ++ t1a ++ "'", by simp [predict_match, h1],
          quoted_msg_ne_empty t1a⟩
      | some s1 =>
        exact ⟨"预测失败: '" ++ t2a ++ "'", by simp [predict_match, h1, h],
          quoted_msg_ne_empty t2a⟩
  · intro s1 s2 e h1 h2 hsc
    simp only [predict_match, h1, h2, hsc]
  · intro s1 s2 fs e h1 h2 hs hm
    simp only [predict_match, h1, h2, hs, hm]
  · intro msg hres
    rw [predict_match] at hres
    cases h1 : lookup teams_data t1a with
    | none =>
      simp only [h1] at hres
      cases hres
      exact quoted_msg_ne_empty t1a
    | some s1 =>
      simp only [h1] at hres
      cases h2 : lookup teams_data t2a with
      | none =>
        simp only [h2] at hres
        cases hres
        exact quoted_msg_ne_empty t2a
      | some s2 =>
        simp only [h2] at hres
        cases hsc : scaler (features teams_data s1 s2 map_name) with
        | error e =>
          simp only [hsc] at hres
          cases hres
          exact caught_msg_ne_empty e
        | ok fs =>
          simp only [hsc] at hres
          cases hmo : model fs with
          | error e =>
            simp only [hmo] at hres
            cases hres
            exact caught_msg_ne_empty e
          | ok probs =>
            simp only [hmo] at hres
            cases hget : probs.get? 1 with
            | none =>
              simp only [hget] at hres
              cases hres
              exact caught_msg_ne_empty "index 1 is out of bounds"
            | some prob =>
              simp only [hget] at hres
              cases hres

/-- Witness for C3: on `exTD` both teams are present and the scaler
raises "boom"; the call returns the caught-exception error record with a
non-empty message. -/
theorem predict_match_error_result_witness :
    predict_match "A" "B" "Ascent" exModel exFailScaler exTD =
      .error ("预测失败: " ++ "boom") ∧ "预测失败: " ++ "boom" ≠ "" :=
  ⟨(predict_match_error_result "A" "B" "Ascent" exModel exFailScaler exTD).2.1
      exS1 exS2 "boom" rfl rfl rfl,
   (predict_match_error_result "A" "B" "Ascent" exModel exFailScaler exTD).2.2.2
      ("预测失败: " ++ "boom")
      ((predict_match_error_result "A" "B" "Ascent" exModel exFailScaler exTD).2.1
        exS1 exS2 "boom" rfl rfl rfl)⟩

/-- Rounding to three decimals keeps a non-negative value non-negative. -/
theorem round3_nonneg {x : ℝ} (hx : 0 ≤ x) : round3 x ≥ 0 := by
  rw [round3]
  apply div_nonneg _ (by norm_num)
  have hstep := sub_half_lt_round ((1000 : ℝ) * x)
  have h0 : (0 : ℝ) ≤ 1000 * x := mul_nonneg (by norm_num) hx
  have hgt : ((-1 : ℤ) : ℝ) < ((round ((1000 : ℝ) * x) : ℤ) : ℝ) := by
    push_cast
    linarith
  have hgtz : (-1 : ℤ) < round ((1000 : ℝ) * x) := by exact_mod_cast hgt
  have hfin : (0 : ℤ) ≤ round ((1000 : ℝ) * x) := by omega
  exact_mod_cast hfin

/-- Rounding to three decimals keeps a value at most one at most one. -/
theorem round3_le_one {x : ℝ} (hx : x ≤ 1) : round3 x ≤ 1 := by
  rw [round3, div_le_one (by norm_num)]
  have hstep := round_le_add_half ((1000 : ℝ) * x)
  have hlt : ((round ((1000 : ℝ) * x) : ℤ) : ℝ) < ((1001 : ℤ) : ℝ) := by
    push_cast
    linarith
  have hltz : round ((1000 : ℝ) * x) < (1001 : ℤ) := by exact_mod_cast hlt
  have hfin : round ((1000 : ℝ) * x) ≤ (1000 : ℤ) := by omega
  exact_mod_cast hfin

/-- C4.  On a successful prediction with a valid two-class distribution
`[p0, p1]` from the classifier, the stored win probability `round3 p1`
lies in `[0, 1]`, and the confidence label of line 148 is "高可信度"
(high confidence) exactly when `|p1 - 0.5| > 0.3`, i.e. exactly when `p1`
lies strictly beyond `0.2` or `0.8`; at the boundary values `0.2` and
`0.8` themselves the label is "需谨慎参考" (use with caution). -/
theorem predict_match_prob_confidence (t1a t2a map_name : String)
    (model scaler : List ℝ → Except String (List ℝ)) (teams_data : TeamsData)
    (s1 s2 : TeamStats) (fs : List ℝ) (p0 p1 : ℝ)
    (h1 : lookup teams_data t1a = some s1) (h2 : lookup teams_data t2a = some s2)
    (hs : scaler (features teams_data s1 s2 map_name) = .ok fs)
    (hm : model fs = .ok [p0, p1])
    (hp0 : 0 ≤ p0) (hp1 : 0 ≤ p1) (hsum : p0 + p1 = 1) :
    ∃ conf, predict_match t1a t2a map_name model scaler teams_data =
        .ok t1a t2a map_name (round3 p1) conf ∧
      0 ≤ round3 p1 ∧ round3 p1 ≤ 1 ∧
      (conf = "高可信度" ↔ |p1 - 0.5| > 0.3) ∧
      (conf = "高可信度" ↔ (p1 < 0.2 ∨ 0.8 < p1)) ∧
      ((p1 = 0.2 ∨ p1 = 0.8) → conf = "需谨慎参考") := by
  have hp1le : p1 ≤ 1 := by linarith
  have hget : ([p0, p1] : List ℝ).get? 1 = some p1 := rfl
  have hres : predict_match t1a t2a map_name model scaler teams_data =
      .ok t1a t2a map_name (round3 p1)
        (if |p1 - 0.5| > 0.3 then "高可信度" else "需谨慎参考") := by
    simp only [predict_match, h1, h2, hs, hm, hget]
  have hiff : ((if |p1 - 0.5| > (0.3 : ℝ) then "高可信度" else "需谨慎参考") = "高可信度") ↔
      |p1 - 0.5| > (0.3 : ℝ) := by
    by_cases hc : |p1 - 0.5| > (0.3 : ℝ)
    · simp [hc]
    · rw [if_neg hc]
      exact ⟨fun h => absurd h (by decide), fun h => absurd h hc⟩
  have habs2 : (|p1 - (0.5 : ℝ)| > 0.3) ↔ (p1 < 0.2 ∨ 0.8 < p1) := by
    rw [gt_iff_lt, lt_abs]
    constructor
    · rintro (h | h)
      · right
        linarith
      · left
        linarith
    · rintro (h | h)
      · right
        linarith
      · left
        linarith
  have hbd : (p1 = (0.2 : ℝ) ∨ p1 = 0.8) →
      (if |p1 - 0.5| > (0.3 : ℝ) then "高可信度" else "需谨慎参考") = "需谨慎参考" := by
    rintro (h02 | h08)
    · subst h02
      have habs : |(0.2 : ℝ) - 0.5| = 0.3 := by
        rw [abs_of_nonpos (by norm_num)]
        norm_num
      rw [if_neg (by rw [habs]; norm_num)]
    · subst h08
      have habs : |(0.8 : ℝ) - 0.5| = 0.3 := by
        rw [abs_of_nonneg (by norm_num)]
        norm_num
      rw [if_neg (by rw [habs]; norm_num)]
  exact ⟨_, hres, round3_nonneg hp1, round3_le_one hp1le, hiff, hiff.trans habs2, hbd⟩

/-- Witness for C4: with the identity scaler and a classifier returning
the fixed distribution `[0.1, 0.9]`, the prediction on `exTD` succeeds
with probability `round3 0.9` and the label is high-confidence. -/
theorem predict_match_prob_confidence_witness :
    lookup exTD "A" = some exS1 ∧ lookup exTD "B" = some exS2 ∧
    exScaler (features exTD exS1 exS2 "Ascent") = .ok (features exTD exS1 exS2 "Ascent") ∧
    exModel (features exTD exS1 exS2 "Ascent") = .ok [0.1, 0.9] ∧
    (0 : ℝ) ≤ 0.1 ∧ (0 : ℝ) ≤ 0.9 ∧ (0.1 : ℝ) + 0.9 = 1 ∧
    (∃ conf, predict_match "A" "B" "Ascent" exModel exScaler exTD =
        .ok "A" "B" "Ascent" (round3 0.9) conf ∧
      0 ≤ round3 (0.9 : ℝ) ∧ round3 (0.9 : ℝ) ≤ 1 ∧
      (conf = "高可信度" ↔ |(0.9 : ℝ) - 0.5| > 0.3) ∧
      (conf = "高可信度" ↔ ((0.9 : ℝ) < 0.2 ∨ (0.8 : ℝ) < 0.9)) ∧
      (((0.9 : ℝ) = 0.2 ∨ (0.9 : ℝ) = 0.8) → conf = "需谨慎参考")) :=
  ⟨rfl, rfl, rfl, rfl, by norm_num, by norm_num, by norm_num,
    predict_match_prob_confidence "A" "B" "Ascent" exModel exScaler exTD exS1 exS2
      (features exTD exS1 exS2 "Ascent") 0.1 0.9 rfl rfl rfl rfl
      (by norm_num) (by norm_num) (by norm_num)⟩

/-- C7.  On a successful prediction the `win_prob` field is exactly the
classifier's positive-class probability — entry `[1]` of the returned
two-class distribution row — rounded to three decimal places (`round3`),
and the result carries the two team abbreviations and the map name
through unchanged. -/
theorem predict_match_result_fields (t1a t2a map_name : String)
    (model scaler : List ℝ → Except String (List ℝ)) (teams_data : TeamsData)
    (s1 s2 : TeamStats) (fs probs : List ℝ) (p : ℝ)
    (h1 : lookup teams_data t1a = some s1) (h2 : lookup teams_data t2a = some s2)
    (hs : scaler (features teams_data s1 s2 map_name) = .ok fs)
    (hm : model fs = .ok probs) (hget : probs.get? 1 = some p) :
    ∃ conf, predict_match t1a t2a map_name model scaler teams_data =
        .ok t1a t2a map_name (round3 p) conf := by
  refine ⟨if |p - 0.5| > 0.3 then "高可信度" else "需谨慎参考", ?_⟩
  simp only [predict_match, h1, h2, hs, hm, hget]

/-- Witness for C7 at the concrete table `exTD` with the identity scaler
and the fixed classifier `exModel`. -/
theorem predict_match_result_fields_witness :
    lookup exTD "A" = some exS1 ∧ lookup exTD "B" = some exS2 ∧
    exScaler (features exTD exS1 exS2 "Ascent") = .ok (features exTD exS1 exS2 "Ascent") ∧
    exModel (features exTD exS1 exS2 "Ascent") = .ok [0.1, 0.9] ∧
    ([(0.1 : ℝ), 0.9] : List ℝ).get? 1 = some 0.9 ∧
    (∃ conf, predict_match "A" "B" "Ascent" exModel exScaler exTD =
        .ok "A" "B" "Ascent" (round3 0.9) conf) :=
  ⟨rfl, rfl, rfl, rfl, rfl,
    predict_match_result_fields "A" "B" "Ascent" exModel exScaler exTD exS1 exS2
      (features exTD exS1 exS2 "Ascent") [0.1, 0.9] 0.9 rfl rfl rfl rfl rfl⟩

end Predict
